import Mathlib

/-!
Verification of the feed-polling and deduplication engine of the dl-news-bot
repository (`src/main.rs`, the `news_update_job` closure, lines 101-161).

The tick body is embedded as a pure function over an explicit environment:
the outcome of the feed fetch/parse and the outcome of the channel-history
query are the tick's inputs; the tick's output is either a fatal error
(an `unwrap` panic in the Rust code), a "no new news" early return, or a
single sent embed payload.
-/

namespace DlNewsBot

/-- A parsed feed item, as produced by `rss::Channel::read_from`:
`title`, `description` and `link` are optional in the RSS data model, and
the Dublin Core extension (itself optional) may carry a list of creators
(`story.dublin_core_ext().and_then(|dc| dc.creators.get(0).cloned())`). -/
structure FeedItem where
  title : Option String
  description : Option String
  link : Option String
  dublinCoreCreators : Option (List String)
  deriving DecidableEq

/-- A message embed: the fields the job reads (`title` of the previous
announcement's first embed) and writes (`emb.title/description/url/
thumbnail/color/footer` in `send_message`, lines 143-154). -/
structure Embed where
  title : Option String
  description : Option String
  url : Option String
  thumbnail : Option String
  color : Option Nat
  footerText : Option String
  deriving DecidableEq

/-- A channel message: its raw text body (`content`) and its embeds. -/
structure Message where
  content : String
  embeds : List Embed
  deriving DecidableEq

/-- Outcome of `reqwest::get(..)...bytes()` followed by
`Channel::read_from`: a network-layer failure, a parse failure, or the
parsed item list in feed order (index 0 = newest). -/
inductive FetchOutcome where
  | netError : FetchOutcome
  | parseError : FetchOutcome
  | parsed : List FeedItem → FetchOutcome
  deriving DecidableEq

/-- The `unwrap` panic sites of the tick body, in source order. -/
inductive TickError where
  | fetchFailed : TickError
  | parseFailed : TickError
  | emptyFeed : TickError
  | missingStoryTitle : TickError
  | missingStoryDescription : TickError
  | missingStoryLink : TickError
  | historyQueryFailed : TickError
  | emptyHistory : TickError
  | noEmbed : TickError
  | noEmbedTitle : TickError
  deriving DecidableEq

/-- One tick's external inputs: the fetch/parse outcome and the result of
the channel-history query (`channel_id.messages(..., limit 1)`): `none`
when the query itself fails, otherwise the retrieved messages,
most recent first. -/
structure TickEnv where
  feed : FetchOutcome
  history : Option (List Message)
  deriving DecidableEq

/-- The fixed thumbnail URL of line 147. -/
def thumbnailUrl : String :=
  "https://cloudfront-eu-central-1.images.arcpublishing.com/dlnews/BJHFLDCZ3NCGRA7FGWFZZWPFLQ.png"

/-- The fixed accent color of line 148 (`0x0000FF`). -/
def embedColor : Nat := 0x0000FF

/-- The embed built inside `send_message` (lines 143-154): title,
description and url from the story, the fixed thumbnail and color, and the
footer `format!("By {}", creator)`. -/
def render (title description url creator : String) : Embed :=
  { title := some title
    description := some description
    url := some url
    thumbnail := some thumbnailUrl
    color := some embedColor
    footerText := some ("By " ++ creator) }

/-- Lines 122-125: the first Dublin Core creator when present, the
sentinel `"Unknown"` otherwise. -/
def creatorOf (story : FeedItem) : String :=
  (story.dublinCoreCreators.bind List.head?).getD "Unknown"

/-- Lines 118-120: `story.title/description/link` are each `unwrap`ped in
that order; a missing field is a panic (tick-fatal error). -/
def storyFields (s : FeedItem) : Except TickError (String × String × String) :=
  match s.title with
  | none => .error .missingStoryTitle
  | some t =>
    match s.description with
    | none => .error .missingStoryDescription
    | some d =>
      match s.link with
      | none => .error .missingStoryLink
      | some l => .ok (t, d, l)

/-- Lines 129-135: the history query is `unwrap`ped, then `get(0)` on the
returned messages, then `get(0)` on that message's embeds, then the
embed's `title` — each step a panic (tick-fatal error) when absent. -/
def prevKey (history : Option (List Message)) : Except TickError String :=
  match history with
  | none => .error .historyQueryFailed
  | some msgs =>
    match msgs.head? with
    | none => .error .emptyHistory
    | some m =>
      match m.embeds.head? with
      | none => .error .noEmbed
      | some e =>
        match e.title with
        | none => .error .noEmbedTitle
        | some k => .ok k

/-- The tick body (lines 106-158). `.error` is an `unwrap` panic aborting
the tick, `.ok none` is the "No new news" early return of line 137,
`.ok (some p)` is a send of payload `p`. `content_channel.items[0]` on an
empty item list is an index panic, modelled by `emptyFeed`. -/
def tick (env : TickEnv) : Except TickError (Option Embed) :=
  match env.feed with
  | .netError => .error .fetchFailed
  | .parseError => .error .parseFailed
  | .parsed items =>
    match items with
    | [] => .error .emptyFeed
    | s :: _ =>
      match storyFields s with
      | .error e => .error e
      | .ok (t, d, l) =>
        match prevKey env.history with
        | .error e => .error e
        | .ok k =>
          if k = t then .ok none
          else .ok (some (render t d l (creatorOf s)))

/-- Whether a tick result is a send. -/
def sends : Except TickError (Option Embed) → Bool
  | .ok (some _) => true
  | _ => false

/-- Modelled from the spec (§4.4, §7): the external scheduler
(`tokio_cron_scheduler` with the tokio runtime, not part of this
repository's sources) runs each tick's body as an isolated task, so an
unrecovered error aborts that tick only and the job fires again on the
next period. `runTicks` collects the payloads sent across a sequence of
tick environments. -/
def runTicks : List TickEnv → List Embed
  | [] => []
  | env :: rest =>
    match tick env with
    | .ok (some p) => p :: runTicks rest
    | _ => runTicks rest

/-- Modelled from the spec (§3, §6): the Delivery Gateway's channel
history is the dedup ledger; a successful send prepends a message whose
only embed is the sent payload (and whose text body is empty, as
`send_message` sets no content), and the history query returns the
channel most recent first. `runLoop` runs consecutive ticks against the
evolving channel. -/
def runLoop : List FetchOutcome → List Message → List Embed
  | [], _ => []
  | f :: rest, chan =>
    match tick { feed := f, history := some chan } with
    | .ok (some p) => p :: runLoop rest ({ content := "", embeds := [p] } :: chan)
    | _ => runLoop rest chan

/-- Forward computation of `storyFields` when all three fields are present. -/
theorem storyFields_eq (s : FeedItem) (t d l : String)
    (ht : s.title = some t) (hd : s.description = some d)
    (hl : s.link = some l) :
    storyFields s = .ok (t, d, l) := by
  simp [storyFields, ht, hd, hl]

/-- Inversion of a successful `storyFields`. -/
theorem storyFields_ok_inv (s : FeedItem) (t d l : String)
    (h : storyFields s = .ok (t, d, l)) :
    s.title = some t ∧ s.description = some d ∧ s.link = some l := by
  rcases s with ⟨st, sd, sl, sc⟩
  rcases st with _ | t0 <;> rcases sd with _ | d0 <;> rcases sl with _ | l0 <;>
    simp_all [storyFields]

/-- Forward computation of `prevKey` when the most recent message's first
embed has a title. -/
theorem prevKey_eq (msgs : List Message) (m : Message) (e : Embed)
    (k : String) (hm : msgs.head? = some m) (he : m.embeds.head? = some e)
    (hk : e.title = some k) :
    prevKey (some msgs) = .ok k := by
  rcases msgs with _ | ⟨m0, rest⟩
  · simp at hm
  · simp at hm
    subst hm
    simp [prevKey, he, hk]

/-- Inversion of a successful `prevKey`. -/
theorem prevKey_ok_inv (history : Option (List Message)) (k : String)
    (h : prevKey history = .ok k) :
    ∃ m ms e es, history = some (m :: ms) ∧ m.embeds = e :: es ∧
      e.title = some k := by
  rcases history with _ | msgs
  · simp [prevKey] at h
  · rcases msgs with _ | ⟨m, ms⟩
    · simp [prevKey] at h
    · rcases hme : m.embeds with _ | ⟨e, es⟩
      · simp [prevKey, hme] at h
      · rcases hk : e.title with _ | k0
        · simp [prevKey, hme, hk] at h
        · simp [prevKey, hme, hk] at h
          exact ⟨m, ms, e, es, rfl, hme, by rw [hk, h]⟩

/-- The tick result once fetch/parse succeeded, the story's fields are
present and the comparison key was extracted: the novelty `if` of
line 135. -/
theorem tick_eq_of_fields (env : TickEnv) (s : FeedItem)
    (rest : List FeedItem) (t d l k : String)
    (hfeed : env.feed = .parsed (s :: rest))
    (hsf : storyFields s = .ok (t, d, l))
    (hpk : prevKey env.history = .ok k) :
    tick env = if k = t then .ok none
      else .ok (some (render t d l (creatorOf s))) := by
  simp [tick, hfeed, hsf, hpk]

/-- The tick aborts with the panic raised by the comparison-key
extraction when the latter fails. -/
theorem tick_eq_of_prevKey_error (env : TickEnv) (s : FeedItem)
    (rest : List FeedItem) (t d l : String) (err : TickError)
    (hfeed : env.feed = .parsed (s :: rest))
    (hsf : storyFields s = .ok (t, d, l))
    (hpk : prevKey env.history = .error err) :
    tick env = .error err := by
  simp [tick, hfeed, hsf, hpk]

/-- Inversion of a sending tick: fetch and parse succeeded, the newest
item's fields are present, a comparison key was extracted and differs
from the title, and the payload is `render` of the newest item. -/
theorem tick_send_inv (env : TickEnv) (p : Embed)
    (h : tick env = .ok (some p)) :
    ∃ s rest t d l k, env.feed = .parsed (s :: rest) ∧
      storyFields s = .ok (t, d, l) ∧ prevKey env.history = .ok k ∧
      k ≠ t ∧ p = render t d l (creatorOf s) := by
  rcases hf : env.feed with _ | _ | items
  · simp [tick, hf] at h
  · simp [tick, hf] at h
  · rcases items with _ | ⟨s, rest⟩
    · simp [tick, hf] at h
    · cases hsf : storyFields s with
      | error e => simp [tick, hf, hsf] at h
      | ok v =>
        obtain ⟨t, d, l⟩ := v
        cases hpk : prevKey env.history with
        | error e => simp [tick, hf, hsf, hpk] at h
        | ok k =>
          by_cases hkt : k = t
          · simp [tick, hf, hsf, hpk, hkt] at h
          · simp [tick, hf, hsf, hpk, hkt] at h
            exact ⟨s, rest, t, d, l, k, rfl, hsf, rfl, hkt, h.symm⟩

/-- A tick whose newest item carries title `T` and whose channel's most
recent message already announces title `T` never sends. -/
theorem tick_no_send_of_same_title (s : FeedItem) (rest : List FeedItem)
    (chan : List Message) (T : String) (hst : s.title = some T)
    (m : Message) (e : Embed) (hm : chan.head? = some m)
    (he : m.embeds.head? = some e) (hk : e.title = some T) :
    sends (tick ⟨.parsed (s :: rest), some chan⟩) = false := by
  have hpk : prevKey (some chan) = .ok T := prevKey_eq chan m e T hm he hk
  cases hsf : storyFields s with
  | error err =>
    simp [tick, sends, hsf]
  | ok v =>
    obtain ⟨t, d, l⟩ := v
    have hts : t = T := by
      have := (storyFields_ok_inv s t d l hsf).1
      rw [hst] at this
      exact (Option.some.injEq ..).mp this.symm
    subst hts
    have := tick_eq_of_fields ⟨.parsed (s :: rest), some chan⟩ s rest t d l t
      rfl hsf hpk
    simp [this, sends]

/-- Once the channel's most recent message announces title `T`, a run of
ticks each of whose newest item carries title `T` sends nothing. -/
theorem runLoop_no_send (T : String) (chan : List Message) (m : Message)
    (e : Embed) (hm : chan.head? = some m) (he : m.embeds.head? = some e)
    (hk : e.title = some T) :
    ∀ feeds : List FetchOutcome,
      (∀ f ∈ feeds, ∃ s rest, f = .parsed (s :: rest) ∧ s.title = some T) →
      runLoop feeds chan = [] := by
  intro feeds
  induction feeds with
  | nil => intro _; rfl
  | cons f rest ih =>
    intro hT
    obtain ⟨s, srest, hf, hst⟩ := hT f (List.mem_cons_self f rest)
    subst hf
    have hns := tick_no_send_of_same_title s srest chan T hst m e hm he hk
    have ihr := ih (fun g hg => hT g (List.mem_cons_of_mem _ hg))
    cases htick : tick ⟨.parsed (s :: srest), some chan⟩ with
    | error err => simp [runLoop, htick, ihr]
    | ok v =>
      cases v with
      | none => simp [runLoop, htick, ihr]
      | some p => rw [htick] at hns; simp [sends] at hns

/-- Claim C1: in a tick where fetch and parse succeed, the newest item's
fields are present, and the comparison key extracted from the channel's
most recent announcement (the first embed's title — the code's rich mode)
differs from the newest item's title, exactly one send occurs, and its
payload is `render` applied to the newest item's fields — a deterministic
function of the newest item alone. -/
theorem C1_novelty_exactly_one_send (env : TickEnv) (s : FeedItem)
    (rest : List FeedItem) (t d l k : String) (m : Message)
    (ms : List Message) (e : Embed)
    (hfeed : env.feed = .parsed (s :: rest))
    (ht : s.title = some t) (hd : s.description = some d)
    (hl : s.link = some l)
    (hh : env.history = some (m :: ms))
    (he : m.embeds.head? = some e) (hk : e.title = some k)
    (hne : k ≠ t) :
    tick env = .ok (some (render t d l (creatorOf s))) := by
  have hsf := storyFields_eq s t d l ht hd hl
  have hpk : prevKey env.history = .ok k := by
    rw [hh]
    exact prevKey_eq (m :: ms) m e k rfl he hk
  rw [tick_eq_of_fields env s rest t d l k hfeed hsf hpk, if_neg hne]

/-- Claim C1, witnessed at a concrete tick: previous announcement titled
"Old", newest item titled "T". -/
theorem C1_novelty_exactly_one_send_witness :
    tick ⟨.parsed [⟨some "T", some "D", some "L", none⟩],
          some [⟨"", [⟨some "Old", none, none, none, none, none⟩]⟩]⟩
      = .ok (some (render "T" "D" "L"
          (creatorOf ⟨some "T", some "D", some "L", none⟩))) :=
  C1_novelty_exactly_one_send
    ⟨.parsed [⟨some "T", some "D", some "L", none⟩],
     some [⟨"", [⟨some "Old", none, none, none, none, none⟩]⟩]⟩
    ⟨some "T", some "D", some "L", none⟩ [] "T" "D" "L" "Old"
    ⟨"", [⟨some "Old", none, none, none, none, none⟩]⟩ []
    ⟨some "Old", none, none, none, none, none⟩
    rfl rfl rfl rfl rfl rfl rfl (by decide)

/-- Claim C2: if the feed is unchanged across two consecutive ticks and
the first tick's announcement is the channel's most recent message at the
second tick, the second tick produces zero sends. -/
theorem C2_second_tick_silent (env1 env2 : TickEnv) (p : Embed)
    (m : Message) (ms : List Message)
    (hfeed : env2.feed = env1.feed)
    (h1 : tick env1 = .ok (some p))
    (hh : env2.history = some (m :: ms))
    (he : m.embeds.head? = some p) :
    tick env2 = .ok none := by
  obtain ⟨s, rest, t, d, l, k, hf1, hsf, hpk1, hkt, hp⟩ := tick_send_inv env1 p h1
  have hpt : p.title = some t := by rw [hp]; rfl
  have hpk2 : prevKey env2.history = .ok t := by
    rw [hh]
    exact prevKey_eq (m :: ms) m p t rfl he hpt
  have h2 := tick_eq_of_fields env2 s rest t d l t (hfeed.trans hf1) hsf hpk2
  rw [if_pos rfl] at h2
  exact h2

/-- Claim C2, witnessed: first tick announced the newest item titled "T";
with the feed unchanged and that announcement most recent, the second tick
sends nothing. -/
theorem C2_second_tick_silent_witness :
    tick ⟨.parsed [⟨some "T", some "D", some "L", none⟩],
          some [⟨"", [render "T" "D" "L" "Unknown"]⟩]⟩ = .ok none :=
  C2_second_tick_silent
    ⟨.parsed [⟨some "T", some "D", some "L", none⟩],
     some [⟨"", [⟨some "Old", none, none, none, none, none⟩]⟩]⟩
    ⟨.parsed [⟨some "T", some "D", some "L", none⟩],
     some [⟨"", [render "T" "D" "L" "Unknown"]⟩]⟩
    (render "T" "D" "L" "Unknown") ⟨"", [render "T" "D" "L" "Unknown"]⟩ []
    rfl rfl rfl rfl

/-- Claim C3 is false on the code: the dedup key is the title, not the
link. Two consecutive ticks whose newest item keeps link "L" but is
retitled ("T1" then "T2") produce two announcements, both for link "L",
even though the prior announcement is re-read before each emit. -/
theorem C3_counterexample :
    runLoop
        [.parsed [⟨some "T1", some "D1", some "L", none⟩],
         .parsed [⟨some "T2", some "D2", some "L", none⟩]]
        [⟨"", [⟨some "T0", none, none, none, none, none⟩]⟩]
      = [render "T1" "D1" "L" "Unknown", render "T2" "D2" "L" "Unknown"] ∧
    (render "T1" "D1" "L" "Unknown").url = some "L" ∧
    (render "T2" "D2" "L" "Unknown").url = some "L" :=
  ⟨rfl, rfl, rfl⟩

/-- Claim C3 as amended: across every sequence of consecutive ticks run
against the channel (the prior announcement re-read before each emit), at
most one announcement is produced per distinct FeedItem.title observed as
the newest item — the fingerprint is the title, not the link. -/
theorem C3_amended_at_most_one_per_title (T : String) :
    ∀ (feeds : List FetchOutcome) (chan : List Message),
      (∀ f ∈ feeds, ∃ s rest, f = .parsed (s :: rest) ∧ s.title = some T) →
      (runLoop feeds chan).length ≤ 1 := by
  intro feeds
  induction feeds with
  | nil => intro chan _; simp [runLoop]
  | cons f rest ih =>
    intro chan hT
    obtain ⟨s, srest, hf, hst⟩ := hT f (List.mem_cons_self f rest)
    subst hf
    have hTrest := fun g hg => hT g (List.mem_cons_of_mem _ hg)
    cases htick : tick ⟨.parsed (s :: srest), some chan⟩ with
    | error err =>
      simpa [runLoop, htick] using ih chan hTrest
    | ok v =>
      cases v with
      | none =>
        simpa [runLoop, htick] using ih chan hTrest
      | some p =>
        obtain ⟨s2, rest2, t, d, l, k, hfeed2, hsf, hpk, hkt, hp⟩ :=
          tick_send_inv _ p htick
        have hfeed3 : FetchOutcome.parsed (s :: srest)
            = FetchOutcome.parsed (s2 :: rest2) := hfeed2
        have hs2 : s = s2 ∧ srest = rest2 := by
          simpa [FetchOutcome.parsed.injEq, List.cons.injEq] using hfeed3
        have htT : t = T := by
          have h1 := (storyFields_ok_inv s2 t d l hsf).1
          rw [← hs2.1, hst] at h1
          exact Option.some_injective String h1.symm
        have hpt : p.title = some T := by
          rw [hp, ← htT]
          rfl
        have hrest : runLoop rest ({ content := "", embeds := [p] } :: chan) = [] :=
          runLoop_no_send T ({ content := "", embeds := [p] } :: chan)
            { content := "", embeds := [p] } p rfl rfl hpt rest hTrest
        simp [runLoop, htick, hrest]

/-- Claim C3 as amended, witnessed: two consecutive ticks both observing
newest title "T" against a channel last announcing "T0" yield at most one
send. -/
theorem C3_amended_at_most_one_per_title_witness :
    (runLoop
        [.parsed [⟨some "T", some "D1", some "L1", none⟩],
         .parsed [⟨some "T", some "D2", some "L2", none⟩]]
        [⟨"", [⟨some "T0", none, none, none, none, none⟩]⟩]).length ≤ 1 :=
  C3_amended_at_most_one_per_title "T"
    [.parsed [⟨some "T", some "D1", some "L1", none⟩],
     .parsed [⟨some "T", some "D2", some "L2", none⟩]]
    [⟨"", [⟨some "T0", none, none, none, none, none⟩]⟩]
    (by
      intro f hf
      simp only [List.mem_cons, List.mem_singleton] at hf
      rcases hf with rfl | rfl | hf
      · exact ⟨⟨some "T", some "D1", some "L1", none⟩, [], rfl, rfl⟩
      · exact ⟨⟨some "T", some "D2", some "L2", none⟩, [], rfl, rfl⟩
      · exact absurd hf (List.not_mem_nil f))

/-- Claim C4: for ticks whose fetch/parse succeeded, whose newest item has
all fields, and whose most recent channel message has a titled first
embed, whether a send occurs depends only on the newest item's title and
that embed's title: two such ticks agreeing on those two strings (but
differing in links, descriptions, creators, message bodies, older items or
older messages) agree on whether they send, and the send is suppressed
exactly when the two titles are equal. -/
theorem C4_decision_depends_only_on_titles (env env2 : TickEnv)
    (s s2 : FeedItem) (rest rest2 : List FeedItem)
    (t d d2 l l2 k : String) (m m2 : Message) (ms ms2 : List Message)
    (e e2 : Embed)
    (hfeed : env.feed = .parsed (s :: rest))
    (hfeed2 : env2.feed = .parsed (s2 :: rest2))
    (ht : s.title = some t) (ht2 : s2.title = some t)
    (hd : s.description = some d) (hd2 : s2.description = some d2)
    (hl : s.link = some l) (hl2 : s2.link = some l2)
    (hh : env.history = some (m :: ms))
    (hh2 : env2.history = some (m2 :: ms2))
    (he : m.embeds.head? = some e) (he2 : m2.embeds.head? = some e2)
    (hk : e.title = some k) (hk2 : e2.title = some k) :
    sends (tick env) = sends (tick env2) ∧
    (sends (tick env) = false ↔ k = t) := by
  have hq1 := tick_eq_of_fields env s rest t d l k hfeed
    (storyFields_eq s t d l ht hd hl)
    (by rw [hh]; exact prevKey_eq (m :: ms) m e k rfl he hk)
  have hq2 := tick_eq_of_fields env2 s2 rest2 t d2 l2 k hfeed2
    (storyFields_eq s2 t d2 l2 ht2 hd2 hl2)
    (by rw [hh2]; exact prevKey_eq (m2 :: ms2) m2 e2 k rfl he2 hk2)
  by_cases hkt : k = t <;> simp [hq1, hq2, hkt, sends]

/-- Claim C4, witnessed: two ticks sharing newest title "T" and previous
embed title "Old" but with different links, descriptions and message
bodies both send, and the suppression condition is title equality. -/
theorem C4_decision_depends_only_on_titles_witness :
    sends (tick ⟨.parsed [⟨some "T", some "D1", some "L1", none⟩],
      some [⟨"", [⟨some "Old", none, none, none, none, none⟩]⟩]⟩)
      = sends (tick ⟨.parsed [⟨some "T", some "D2", some "L2", some ["A"]⟩],
        some [⟨"body", [⟨some "Old", some "x", none, none, none, none⟩]⟩]⟩) ∧
    (sends (tick ⟨.parsed [⟨some "T", some "D1", some "L1", none⟩],
      some [⟨"", [⟨some "Old", none, none, none, none, none⟩]⟩]⟩) = false
      ↔ "Old" = "T") :=
  C4_decision_depends_only_on_titles
    ⟨.parsed [⟨some "T", some "D1", some "L1", none⟩],
     some [⟨"", [⟨some "Old", none, none, none, none, none⟩]⟩]⟩
    ⟨.parsed [⟨some "T", some "D2", some "L2", some ["A"]⟩],
     some [⟨"body", [⟨some "Old", some "x", none, none, none, none⟩]⟩]⟩
    ⟨some "T", some "D1", some "L1", none⟩
    ⟨some "T", some "D2", some "L2", some ["A"]⟩ [] []
    "T" "D1" "D2" "L1" "L2" "Old"
    ⟨"", [⟨some "Old", none, none, none, none, none⟩]⟩
    ⟨"body", [⟨some "Old", some "x", none, none, none, none⟩]⟩ [] []
    ⟨some "Old", none, none, none, none, none⟩
    ⟨some "Old", some "x", none, none, none, none⟩
    rfl rfl rfl rfl rfl rfl rfl rfl rfl rfl rfl rfl rfl rfl

/-- Claim C5 is false on the code: the comparison key is never the
message's raw text body. At a tick whose newest item has link
"https://x/1" and whose most recent channel message has raw text body
"https://x/1" (but a first embed titled "Old", different from the item's
title), a send occurs. -/
theorem C5_counterexample :
    (⟨some "T", some "D", some "https://x/1", none⟩ : FeedItem).link
      = some "https://x/1" ∧
    (⟨"https://x/1", [⟨some "Old", none, none, none, none, none⟩]⟩
      : Message).content = "https://x/1" ∧
    sends (tick ⟨.parsed [⟨some "T", some "D", some "https://x/1", none⟩],
      some [⟨"https://x/1",
        [⟨some "Old", none, none, none, none, none⟩]⟩]⟩) = true :=
  ⟨rfl, rfl, rfl⟩

/-- Claim C5 as amended: the send is suppressed when the title of the
most recent message's first embed equals the newest item's title, and the
message's raw text body is never consulted — replacing the body by any
string leaves the outcome unchanged. -/
theorem C5_amended_embed_title_is_key (env : TickEnv) (s : FeedItem)
    (rest : List FeedItem) (t d l : String) (m : Message)
    (ms : List Message) (e : Embed)
    (hfeed : env.feed = .parsed (s :: rest))
    (ht : s.title = some t) (hd : s.description = some d)
    (hl : s.link = some l)
    (hh : env.history = some (m :: ms))
    (he : m.embeds.head? = some e) (hk : e.title = some t) :
    tick env = .ok none ∧
    ∀ c : String,
      tick ⟨env.feed, some ({ content := c, embeds := m.embeds } :: ms)⟩
        = .ok none := by
  have hsf := storyFields_eq s t d l ht hd hl
  constructor
  · have hpk : prevKey env.history = .ok t := by
      rw [hh]
      exact prevKey_eq (m :: ms) m e t rfl he hk
    have h2 := tick_eq_of_fields env s rest t d l t hfeed hsf hpk
    rw [if_pos rfl] at h2
    exact h2
  · intro c
    have hpk : prevKey (some ({ content := c, embeds := m.embeds } :: ms))
        = .ok t :=
      prevKey_eq ({ content := c, embeds := m.embeds } :: ms)
        { content := c, embeds := m.embeds } e t rfl he hk
    have h2 := tick_eq_of_fields
      ⟨env.feed, some ({ content := c, embeds := m.embeds } :: ms)⟩
      s rest t d l t hfeed hsf hpk
    rw [if_pos rfl] at h2
    exact h2

/-- Claim C5 as amended, witnessed: equal titles suppress the send, and
setting the message's raw body to "https://x/1" changes nothing. -/
theorem C5_amended_embed_title_is_key_witness :
    tick ⟨.parsed [⟨some "T", some "D", some "https://x/1", none⟩],
      some [⟨"", [⟨some "T", none, none, none, none, none⟩]⟩]⟩ = .ok none ∧
    tick ⟨.parsed [⟨some "T", some "D", some "https://x/1", none⟩],
      some [⟨"https://x/1",
        [⟨some "T", none, none, none, none, none⟩]⟩]⟩ = .ok none :=
  ⟨(C5_amended_embed_title_is_key
      ⟨.parsed [⟨some "T", some "D", some "https://x/1", none⟩],
       some [⟨"", [⟨some "T", none, none, none, none, none⟩]⟩]⟩
      ⟨some "T", some "D", some "https://x/1", none⟩ [] "T" "D" "https://x/1"
      ⟨"", [⟨some "T", none, none, none, none, none⟩]⟩ []
      ⟨some "T", none, none, none, none, none⟩
      rfl rfl rfl rfl rfl rfl rfl).1,
   (C5_amended_embed_title_is_key
      ⟨.parsed [⟨some "T", some "D", some "https://x/1", none⟩],
       some [⟨"", [⟨some "T", none, none, none, none, none⟩]⟩]⟩
      ⟨some "T", some "D", some "https://x/1", none⟩ [] "T" "D" "https://x/1"
      ⟨"", [⟨some "T", none, none, none, none, none⟩]⟩ []
      ⟨some "T", none, none, none, none, none⟩
      rfl rfl rfl rfl rfl rfl rfl).2 "https://x/1"⟩

/-- Claim C6: `render` produces a card with title, body and url taken
from the item, the fixed thumbnail reference, the fixed accent color, and
a footer "By author"; the creator defaults to the sentinel "Unknown" when
the Dublin Core extension or its creator list is absent, and is the first
listed creator otherwise. -/
theorem C6_rich_payload_fields :
    (∀ t d l c, render t d l c =
      ⟨some t, some d, some l, some thumbnailUrl, some embedColor,
       some ("By " ++ c)⟩) ∧
    (∀ t2 d2 l2, creatorOf ⟨t2, d2, l2, none⟩ = "Unknown") ∧
    (∀ t2 d2 l2, creatorOf ⟨t2, d2, l2, some []⟩ = "Unknown") ∧
    (∀ t2 d2 l2 a cs, creatorOf ⟨t2, d2, l2, some (a :: cs)⟩ = a) :=
  ⟨fun _ _ _ _ => rfl, fun _ _ _ => rfl, fun _ _ _ => rfl,
   fun _ _ _ _ _ => rfl⟩

/-- Claim C7: a network failure of the fetch aborts the tick with no
send, and — per the spec's scheduler model (`runTicks`) — the remaining
ticks run exactly as they would have, so the job fires again on the next
period. -/
theorem C7_fetch_failure_isolated (env : TickEnv) (rest : List TickEnv)
    (h : env.feed = .netError) :
    tick env = .error .fetchFailed ∧ sends (tick env) = false ∧
    runTicks (env :: rest) = runTicks rest := by
  have ht : tick env = .error .fetchFailed := by simp [tick, h]
  exact ⟨ht, by simp [ht, sends], by simp [runTicks, ht]⟩

/-- Claim C7, witnessed: a failing fetch followed by a healthy tick — the
failing tick sends nothing and the next tick is unaffected. -/
theorem C7_fetch_failure_isolated_witness :
    tick ⟨.netError, none⟩ = .error .fetchFailed ∧
    sends (tick ⟨.netError, none⟩) = false ∧
    runTicks [⟨.netError, none⟩,
      ⟨.parsed [⟨some "T", some "D", some "L", none⟩],
       some [⟨"", [⟨some "Old", none, none, none, none, none⟩]⟩]⟩]
      = runTicks [⟨.parsed [⟨some "T", some "D", some "L", none⟩],
          some [⟨"", [⟨some "Old", none, none, none, none, none⟩]⟩]⟩] :=
  C7_fetch_failure_isolated ⟨.netError, none⟩
    [⟨.parsed [⟨some "T", some "D", some "L", none⟩],
      some [⟨"", [⟨some "Old", none, none, none, none, none⟩]⟩]⟩] rfl

/-- Claim C8: when no comparable key exists — the history is empty, its
most recent message has no embed, or the first embed has no title — the
tick halts with a fatal error before any send, rather than treating the
newest item as new. -/
theorem C8_missing_key_fatal (env : TickEnv) (s : FeedItem)
    (rest : List FeedItem) (t d l : String)
    (hfeed : env.feed = .parsed (s :: rest))
    (ht : s.title = some t) (hd : s.description = some d)
    (hl : s.link = some l)
    (hcase : env.history = some [] ∨
      (∃ m ms, env.history = some (m :: ms) ∧ m.embeds = []) ∨
      (∃ m ms e es, env.history = some (m :: ms) ∧ m.embeds = e :: es ∧
        e.title = none)) :
    (∃ err, tick env = .error err) ∧ sends (tick env) = false := by
  have hsf := storyFields_eq s t d l ht hd hl
  have hpk : ∃ err, prevKey env.history = .error err := by
    rcases hcase with hh | ⟨m, ms, hh, hme⟩ | ⟨m, ms, e, es, hh, hme, hk⟩
    · exact ⟨.emptyHistory, by rw [hh]; rfl⟩
    · exact ⟨.noEmbed, by rw [hh]; simp [prevKey, hme]⟩
    · exact ⟨.noEmbedTitle, by rw [hh]; simp [prevKey, hme, hk]⟩
  obtain ⟨err, hpk⟩ := hpk
  have herr := tick_eq_of_prevKey_error env s rest t d l err hfeed hsf hpk
  exact ⟨⟨err, herr⟩, by simp [herr, sends]⟩

/-- Claim C8, witnessed at the empty-history case. -/
theorem C8_missing_key_fatal_witness :
    (∃ err, tick ⟨.parsed [⟨some "T", some "D", some "L", none⟩], some []⟩
      = .error err) ∧
    sends (tick ⟨.parsed [⟨some "T", some "D", some "L", none⟩], some []⟩)
      = false :=
  C8_missing_key_fatal
    ⟨.parsed [⟨some "T", some "D", some "L", none⟩], some []⟩
    ⟨some "T", some "D", some "L", none⟩ [] "T" "D" "L"
    rfl rfl rfl rfl (Or.inl rfl)

/-- Claim C9: the announcement-formatting step is the pure total function
`render`: every payload a tick ever emits is `render` applied to the
newest item's parsed fields with the creator fallback applied — formatting
introduces no failure mode of its own and is deterministic in the item. -/
theorem C9_payload_factors_through_render (env : TickEnv) (p : Embed)
    (h : tick env = .ok (some p)) :
    ∃ s rest t d l, env.feed = .parsed (s :: rest) ∧
      s.title = some t ∧ s.description = some d ∧ s.link = some l ∧
      p = render t d l (creatorOf s) := by
  obtain ⟨s, rest, t, d, l, k, hf, hsf, hpk, hkt, hp⟩ := tick_send_inv env p h
  obtain ⟨h1, h2, h3⟩ := storyFields_ok_inv s t d l hsf
  exact ⟨s, rest, t, d, l, hf, h1, h2, h3, hp⟩

/-- Claim C9, witnessed at a concrete sending tick. -/
theorem C9_payload_factors_through_render_witness :
    ∃ s rest t d l,
      (⟨.parsed [⟨some "T", some "D", some "L", none⟩],
        some [⟨"", [⟨some "Old", none, none, none, none, none⟩]⟩]⟩
        : TickEnv).feed = .parsed (s :: rest) ∧
      s.title = some t ∧ s.description = some d ∧ s.link = some l ∧
      render "T" "D" "L" "Unknown" = render t d l (creatorOf s) :=
  C9_payload_factors_through_render
    ⟨.parsed [⟨some "T", some "D", some "L", none⟩],
     some [⟨"", [⟨some "Old", none, none, none, none, none⟩]⟩]⟩
    (render "T" "D" "L" "Unknown") rfl

/-- Claim C10: a tick inspects only the newest item of the parsed feed:
its result is unchanged under arbitrary replacement of every later item. -/
theorem C10_only_newest_item_inspected (s : FeedItem)
    (rest rest2 : List FeedItem) (history : Option (List Message)) :
    tick ⟨.parsed (s :: rest), history⟩
      = tick ⟨.parsed (s :: rest2), history⟩ := rfl

end DlNewsBot
